import Mathlib

/-!
Verification of the Thesys proxy template: the server-side request relay
(`pages/api/thesys.js`, handler) and the client-side response normalizer
(`components/Chat.js`, the assistantText extraction inside `send`).

The JavaScript source is embedded shallowly: JSON documents become the
inductive `JsonV`, JavaScript expression values during the normalizer's
field probing become `JsVal` (adding `undefined`), member access that can
throw a TypeError becomes an `Except String` computation, and the handler
becomes a pure function from configuration, upstream outcome and inbound
request to the pair of (outbound request actually issued, client response).
-/

namespace ThesysProxy

/-- A parsed JSON document (what JSON.parse / req.body / res.json produce). -/
inductive JsonV where
  | null
  | bool (b : Bool)
  | num (n : Int)
  | str (s : String)
  | arr (xs : List JsonV)
  | obj (fields : List (String × JsonV))

/-- JavaScript values arising while probing fields: a JSON value or undefined. -/
inductive JsVal where
  | undefined
  | json (v : JsonV)

/-- JSON string escaping used by JSON.stringify for one character. -/
def escapeChar (c : Char) : String :=
  if c = '"' then "\\\""
  else if c = '\\' then "\\\\"
  else if c = '\n' then "\\n"
  else if c = '\t' then "\\t"
  else if c = '\r' then "\\r"
  else String.singleton c

/-- JSON string escaping used by JSON.stringify. -/
def escapeJson (s : String) : String :=
  String.join (s.data.map escapeChar)

/-- A JSON string literal: quotes around the escaped content. -/
def quoteStr (s : String) : String :=
  "\"" ++ escapeJson s ++ "\""

mutual

/-- JSON.stringify on a parsed JSON value. -/
def stringify : JsonV → String
  | .null => "null"
  | .bool true => "true"
  | .bool false => "false"
  | .num n => toString n
  | .str s => quoteStr s
  | .arr xs => "[" ++ stringifyList xs ++ "]"
  | .obj fs => "\x7b" ++ stringifyFields fs ++ "\x7d"

/-- Comma-separated serialization of array elements. -/
def stringifyList : List JsonV → String
  | [] => ""
  | [x] => stringify x
  | x :: y :: rest => stringify x ++ "," ++ stringifyList (y :: rest)

/-- Comma-separated serialization of object fields. -/
def stringifyFields : List (String × JsonV) → String
  | [] => ""
  | [(k, v)] => quoteStr k ++ ":" ++ stringify v
  | (k, v) :: y :: rest => quoteStr k ++ ":" ++ stringify v ++ "," ++ stringifyFields (y :: rest)

end

mutual

/-- The JavaScript String() coercion on a JSON value. -/
def jsonToString : JsonV → String
  | .null => "null"
  | .bool true => "true"
  | .bool false => "false"
  | .num n => toString n
  | .str s => s
  | .arr xs => arrJoin xs
  | .obj _ => "[object Object]"

/-- Array.prototype.toString: elements joined with commas, null rendered empty. -/
def arrJoin : List JsonV → String
  | [] => ""
  | [.null] => ""
  | [x] => jsonToString x
  | .null :: y :: rest => "," ++ arrJoin (y :: rest)
  | x :: y :: rest => jsonToString x ++ "," ++ arrJoin (y :: rest)

end

/-- The JavaScript String() coercion on an expression value. -/
def jsToString : JsVal → String
  | .undefined => "undefined"
  | .json v => jsonToString v

/-- JavaScript truthiness of an expression value. -/
def truthy : JsVal → Bool
  | .undefined => false
  | .json .null => false
  | .json (.bool b) => b
  | .json (.num n) => n != 0
  | .json (.str s) => s != ""
  | .json (.arr _) => true
  | .json (.obj _) => true

/-- First binding of a key in a JSON object's field list. -/
def lookupField : List (String × JsonV) → String → Option JsonV
  | [], _ => none
  | (k, v) :: rest, key => if k = key then some v else lookupField rest key

/-- Property access on a JSON value that cannot throw: objects yield the
field when bound and undefined otherwise; every non-object yields undefined. -/
def fieldOf : JsonV → String → JsVal
  | .obj fs, key =>
    match lookupField fs key with
    | some v => .json v
    | none => .undefined
  | _, _ => .undefined

/-- Total property access on an expression value (undefined propagates). -/
def fieldOfV : JsVal → String → JsVal
  | .undefined, _ => .undefined
  | .json j, key => fieldOf j key

/-- JavaScript member access `v.key`: throws a TypeError on null and
undefined, otherwise resolves the property. -/
def jsMember : JsVal → String → Except String JsVal
  | .undefined, _ => .error "TypeError"
  | .json .null, _ => .error "TypeError"
  | .json j, key => .ok (fieldOf j key)

/-- JavaScript optional chaining `v?.key`: undefined on null or undefined. -/
def jsOptMember : JsVal → String → Except String JsVal
  | .undefined, _ => .ok .undefined
  | .json .null, _ => .ok .undefined
  | v, key => jsMember v key

/-- JavaScript indexing `v[0]`. -/
def jsIndex0 : JsVal → Except String JsVal
  | .undefined => .error "TypeError"
  | .json .null => .error "TypeError"
  | .json (.arr []) => .ok .undefined
  | .json (.arr (x :: _)) => .ok (.json x)
  | .json (.str s) =>
    .ok (match s.data with
      | [] => .undefined
      | c :: _ => .json (.str (String.singleton c)))
  | .json _ => .ok .undefined

/-- Array.isArray on an expression value. -/
def isArrayV : JsVal → Bool
  | .json (.arr _) => true
  | _ => false

/-- The normalizer expression from Chat.js `send`:
`json.output || (Array.isArray(json.choices) && json.choices[0] &&
(json.choices[0].text || json.choices[0].message?.content)) ||
JSON.stringify(json)`, with JavaScript short-circuit and throw semantics. -/
def assistantTextRaw (json : JsonV) : Except String JsVal :=
  match jsMember (.json json) "output" with
  | .error e => .error e
  | .ok a =>
    if truthy a then .ok a
    else
      match jsMember (.json json) "choices" with
      | .error e => .error e
      | .ok ch =>
        if !(isArrayV ch) then .ok (.json (.str (stringify json)))
        else
          match jsIndex0 ch with
          | .error e => .error e
          | .ok c0 =>
            if !(truthy c0) then .ok (.json (.str (stringify json)))
            else
              match jsMember c0 "text" with
              | .error e => .error e
              | .ok t =>
                if truthy t then .ok t
                else
                  match jsMember c0 "message" with
                  | .error e => .error e
                  | .ok m =>
                    match jsOptMember m "content" with
                    | .error e => .error e
                    | .ok c =>
                      if truthy c then .ok c
                      else .ok (.json (.str (stringify json)))

/-- The normalized display string: `String(assistantText)` in Chat.js. -/
def assistantText (json : JsonV) : Except String String :=
  (assistantTextRaw json).map jsToString

/-- Spec-side definition of the extraction order, written from the spec's
words for comparison with `assistantTextRaw`: direct output field, then
first choice's text, then first choice's nested message content, then
full-payload serialization; a stage is used when it resolves to a truthy
(non-empty) value. -/
def extractSpec (j : JsonV) : JsVal :=
  let out := fieldOf j "output"
  if truthy out then out
  else
    let c0 :=
      match fieldOf j "choices" with
      | .json (.arr (x :: _)) => JsVal.json x
      | _ => JsVal.undefined
    let t := fieldOfV c0 "text"
    if truthy t then t
    else
      let c := fieldOfV (fieldOfV c0 "message") "content"
      if truthy c then c
      else .json (.str (stringify j))

/-! ## The request relay (pages/api/thesys.js) -/

/-- Server configuration: `process.env.THESYS_API_KEY` and
`process.env.THESYS_API_URL` (absent environment variables are `none`). -/
structure Config where
  key : Option String
  url : Option String

/-- JavaScript falsiness of an environment variable: absent or empty
(`!THESYS_API_KEY || !THESYS_API_URL`). -/
def envFalsy (o : Option String) : Prop :=
  o.getD "" = ""

instance (o : Option String) : Decidable (envFalsy o) := by
  unfold envFalsy
  infer_instance

/-- The inbound client request: its HTTP method and parsed JSON body. -/
structure Request where
  method : String
  body : JsonV

/-- The outbound request the relay hands to `fetch`. -/
structure OutboundRequest where
  url : String
  method : String
  headers : List (String × String)
  body : String

/-- The upstream `fetch` Response as the handler consumes it: status,
`headers.get('content-type')`, and the results of `resp.json()` and
`resp.text()` (either of which may throw). -/
structure UpstreamResponse where
  status : Nat
  contentTypeHeader : Option String
  jsonResult : Except String JsonV
  textResult : Except String String

/-- Outcome of the awaited `fetch` call: it either throws (network
failure) or yields a Response. -/
inductive FetchOutcome where
  | thrown (message : String)
  | ok (resp : UpstreamResponse)

/-- The response the handler sends back to the client. -/
structure Response where
  status : Nat
  headers : List (String × String)
  body : String

/-- What one run of the handler did: the upstream request it issued, if
any, and the client-visible response. -/
structure HandlerResult where
  sent : Option OutboundRequest
  response : Response

/-- `res.status(s).json(v)`: a JSON content-type (after any headers set
earlier) and the serialized value as body. -/
def jsonResponse (status : Nat) (pre : List (String × String)) (v : JsonV) : Response :=
  { status := status, headers := pre ++ [("content-type", "application/json")],
    body := stringify v }

/-- Whether `pat` occurs contiguously at the start of `l`. -/
def listIsPref : List Char → List Char → Bool
  | [], _ => true
  | _ :: _, [] => false
  | a :: as, b :: bs => a == b && listIsPref as bs

/-- Whether `pat` occurs contiguously anywhere in `l`. -/
def listOccurs : List Char → List Char → Bool
  | pat, [] => pat.isEmpty
  | pat, b :: t => listIsPref pat (b :: t) || listOccurs pat t

/-- JavaScript `s.includes(pat)`. -/
def strIncludes (s pat : String) : Bool :=
  listOccurs pat.data s.data

/-- The 405 body `{error:'Method not allowed'}`. -/
def methodNotAllowedBody : JsonV :=
  .obj [("error", .str "Method not allowed")]

/-- The configuration-error body. -/
def configErrorBody : JsonV :=
  .obj [("error", .str "Thesys API key or URL not configured on server")]

/-- The generic upstream-contact-error body. -/
def upstreamErrorBody : JsonV :=
  .obj [("error", .str "Error contacting Thesys API")]

/-- The handler of pages/api/thesys.js. The upstream behavior (what the
awaited `fetch` does) is passed in as `upstream`; the result records both
the outbound request that was issued (if any) and the client response. -/
def handler (env : Config) (upstream : FetchOutcome) (req : Request) : HandlerResult :=
  if req.method ≠ "POST" then
    { sent := none,
      response := jsonResponse 405 [("Allow", "POST")] methodNotAllowedBody }
  else if envFalsy env.key ∨ envFalsy env.url then
    { sent := none, response := jsonResponse 500 [] configErrorBody }
  else
    let out : OutboundRequest :=
      { url := env.url.getD "", method := "POST",
        headers := [("Content-Type", "application/json"),
                    ("Authorization", "Bearer " ++ env.key.getD "")],
        body := stringify req.body }
    match upstream with
    | .thrown _ =>
      { sent := some out, response := jsonResponse 500 [] upstreamErrorBody }
    | .ok resp =>
      let contentType := resp.contentTypeHeader.getD ""
      if strIncludes contentType "application/json" then
        match resp.jsonResult with
        | .error _ =>
          { sent := some out, response := jsonResponse 500 [] upstreamErrorBody }
        | .ok d =>
          { sent := some out, response := jsonResponse resp.status [] d }
      else
        match resp.textResult with
        | .error _ =>
          { sent := some out, response := jsonResponse 500 [] upstreamErrorBody }
        | .ok t =>
          { sent := some out,
            response := { status := resp.status,
                          headers := [("content-type", contentType)],
                          body := t } }

/-- Whether the handler's own try-block raises for this upstream outcome:
the fetch itself threw, or the body read the handler performs
(`resp.json()` on a JSON content-type, `resp.text()` otherwise) throws. -/
def errorOutcome : FetchOutcome → Bool
  | .thrown _ => true
  | .ok resp =>
    if strIncludes (resp.contentTypeHeader.getD "") "application/json" then
      match resp.jsonResult with
      | .error _ => true
      | .ok _ => false
    else
      match resp.textResult with
      | .error _ => true
      | .ok _ => false

/-! ## The client chat component (components/Chat.js) -/

/-- One chat message: `{role:'user'|'assistant', text}`. -/
structure ChatMessage where
  role : String
  text : String

/-- The component state touched by `send`: the input box, the message
list, and the loading flag. -/
structure ChatState where
  input : String
  messages : List ChatMessage
  loading : Bool

/-- What the awaited client-side `fetch('/api/thesys')` does: throw, or
yield a response with its `ok` flag and the results of `.text()` and
`.json()`. -/
inductive ClientFetchOutcome where
  | thrown (message : String)
  | resp (ok : Bool) (textResult : Except String String) (jsonResult : Except String JsonV)

/-- The whitespace characters trimmed by String.prototype.trim. -/
def isWhitespaceChar (c : Char) : Bool :=
  c = ' ' || c = '\t' || c = '\n' || c = '\r'

/-- JavaScript `input.trim()`: whitespace stripped from both ends. -/
def jsTrim (s : String) : String :=
  String.mk (((s.data.dropWhile isWhitespaceChar).reverse.dropWhile isWhitespaceChar).reverse)

/-- One full run of Chat.js `send`, given the outcome of its fetch.
Returns the final state and the serialized payload actually posted
(`none` when send returned early without issuing a request). -/
def send (st : ChatState) (outcome : ClientFetchOutcome) : ChatState × Option String :=
  let trimmed := jsTrim st.input
  if trimmed = "" then (st, none)
  else
    let afterUser : ChatState :=
      { input := "",
        messages := st.messages ++ [{ role := "user", text := trimmed }],
        loading := true }
    let payload := stringify (.obj [("prompt", .str trimmed)])
    let assistantMsg : ChatMessage :=
      match outcome with
      | .thrown m => { role := "assistant", text := "Error: " ++ m }
      | .resp ok textRes jsonRes =>
        if !ok then
          match textRes with
          | .error m => { role := "assistant", text := "Error: " ++ m }
          | .ok errText =>
            { role := "assistant",
              text := "Error: " ++ (if errText = "" then "Upstream error" else errText) }
        else
          match jsonRes with
          | .error m => { role := "assistant", text := "Error: " ++ m }
          | .ok j =>
            match assistantText j with
            | .error m => { role := "assistant", text := "Error: " ++ m }
            | .ok s => { role := "assistant", text := s }
    ({ afterUser with
        messages := afterUser.messages ++ [assistantMsg],
        loading := false },
     some payload)

/-! ## Helper lemmas -/

/-- A pattern occurring as a prefix is no longer than the list. -/
theorem listIsPref_length {p l : List Char} (h : listIsPref p l = true) :
    p.length ≤ l.length := by
  induction p generalizing l with
  | nil => simp
  | cons a as ih =>
    cases l with
    | nil => simp [listIsPref] at h
    | cons b bs =>
      simp only [listIsPref, Bool.and_eq_true] at h
      simpa using ih h.2

/-- A pattern occurring anywhere is no longer than the list. -/
theorem listOccurs_length {p l : List Char} (h : listOccurs p l = true) :
    p.length ≤ l.length := by
  induction l with
  | nil =>
    cases p with
    | nil => simp
    | cons a as =>
      have hf : listOccurs (a :: as) [] = false := rfl
      rw [hf] at h
      cases h
  | cons b bs ih =>
    have he : listOccurs p (b :: bs) = (listIsPref p (b :: bs) || listOccurs p bs) := rfl
    rw [he, Bool.or_eq_true] at h
    rcases h with h | h
    · exact listIsPref_length h
    · exact (ih h).trans (by simp)

/-- A pattern longer than the string never occurs in it. -/
theorem strIncludes_false_of_long {s pat : String} (h : s.length < pat.length) :
    strIncludes s pat = false := by
  cases hs : strIncludes s pat
  · rfl
  · have h1 : s.data.length < pat.data.length := h
    exact absurd (listOccurs_length hs) (Nat.not_le.mpr h1)

/-- Member access on a non-null JSON value resolves without throwing. -/
theorem jsMember_json {j : JsonV} (hj : j ≠ JsonV.null) (k : String) :
    jsMember (.json j) k = .ok (fieldOf j k) := by
  cases j <;> first | exact absurd rfl hj | rfl

/-- Optional chaining always resolves, to the total field access. -/
theorem jsOptMember_eq (v : JsVal) (k : String) :
    jsOptMember v k = .ok (fieldOfV v k) := by
  cases v with
  | undefined => rfl
  | json j => cases j <;> rfl

/-- A truthy value is neither undefined nor null, so member access on it
resolves without throwing. -/
theorem jsMember_truthy {v : JsVal} (hv : truthy v = true) (k : String) :
    jsMember v k = .ok (fieldOfV v k) := by
  cases v with
  | undefined => simp [truthy] at hv
  | json j => cases j <;> first | rfl | simp [truthy] at hv

/-- Total field access distributes over the json constructor. -/
theorem fieldOfV_json (j : JsonV) (k : String) : fieldOfV (.json j) k = fieldOf j k := by
  cases j <;> rfl

/-- An object value is truthy. -/
theorem truthy_obj (gs : List (String × JsonV)) : truthy (.json (.obj gs)) = true := rfl

/-- The normalizer computes, without throwing, exactly the spec's
four-stage ordered extraction on every non-null payload. -/
theorem assistantTextRaw_eq_extractSpec (j : JsonV) (hj : j ≠ JsonV.null) :
    assistantTextRaw j = .ok (extractSpec j) := by
  cases j with
  | null => exact absurd rfl hj
  | bool b => rfl
  | num n => rfl
  | str s => rfl
  | arr xs => rfl
  | obj fs =>
    have hne : (JsonV.obj fs) ≠ JsonV.null := fun h => JsonV.noConfusion h
    simp only [assistantTextRaw, extractSpec, jsMember_json hne]
    cases ho : truthy (fieldOf (.obj fs) "output") with
    | true => simp [ho]
    | false =>
      simp only [ho, Bool.false_eq_true, if_false]
      cases hch : fieldOf (.obj fs) "choices" with
      | undefined => simp [isArrayV, fieldOfV, truthy]
      | json v =>
        cases v with
        | null => simp [isArrayV, fieldOfV, truthy]
        | bool b2 => simp [isArrayV, fieldOfV, truthy]
        | num n2 => simp [isArrayV, fieldOfV, truthy]
        | str s2 => simp [isArrayV, fieldOfV, truthy]
        | obj gs2 => simp [isArrayV, fieldOfV, truthy]
        | arr ys =>
          cases ys with
          | nil => simp [isArrayV, jsIndex0, fieldOfV, truthy]
          | cons x rest =>
            simp only [isArrayV, jsIndex0, Bool.not_true, Bool.false_eq_true, if_false]
            cases x with
            | null => simp [truthy, fieldOfV, fieldOf]
            | bool b3 => cases b3 <;> simp [truthy, fieldOfV, fieldOf, jsMember, jsOptMember]
            | num n3 =>
              cases hb : (n3 != 0) <;>
                simp [truthy, hb, fieldOfV, fieldOf, jsMember, jsOptMember]
            | str s3 =>
              cases hs3 : (s3 != "") <;>
                simp [truthy, hs3, fieldOfV, fieldOf, jsMember, jsOptMember]
            | arr zs => simp [truthy, fieldOfV, fieldOf, jsMember, jsOptMember]
            | obj gs =>
              cases ht : truthy (fieldOf (.obj gs) "text") with
              | true => simp [jsMember, fieldOfV_json, truthy_obj, ht]
              | false =>
                cases hc : truthy (fieldOfV (fieldOf (.obj gs) "message") "content") with
                | true => simp [jsMember, fieldOfV_json, truthy_obj, jsOptMember_eq, ht, hc]
                | false => simp [jsMember, fieldOfV_json, truthy_obj, jsOptMember_eq, ht, hc]

/-- The handler's own error responses, as `Response` constants. -/
def methodNotAllowedResp : Response := jsonResponse 405 [("Allow", "POST")] methodNotAllowedBody

/-- The configuration-error response constant. -/
def configErrorResp : Response := jsonResponse 500 [] configErrorBody

/-- The generic upstream-contact-error response constant. -/
def upstreamErrorResp : Response := jsonResponse 500 [] upstreamErrorBody

/-- On every error path — wrong method, missing configuration, or a throw
while contacting or reading the upstream — the handler's client response
is one of three fixed constants. -/
theorem handler_error_responses (env : Config) (up : FetchOutcome) (req : Request)
    (h : req.method ≠ "POST" ∨ envFalsy env.key ∨ envFalsy env.url ∨ errorOutcome up = true) :
    (handler env up req).response = methodNotAllowedResp
    ∨ (handler env up req).response = configErrorResp
    ∨ (handler env up req).response = upstreamErrorResp := by
  by_cases hm : req.method ≠ "POST"
  · left
    simp [handler, hm, methodNotAllowedResp]
  · by_cases hc : envFalsy env.key ∨ envFalsy env.url
    · right; left
      simp [handler, hm, hc, configErrorResp]
    · right; right
      have he : errorOutcome up = true := by
        rcases h with h | h | h | h
        · exact absurd h hm
        · exact absurd (Or.inl h) hc
        · exact absurd (Or.inr h) hc
        · exact h
      cases up with
      | thrown m => simp [handler, hm, hc, upstreamErrorResp]
      | ok resp =>
        cases hct : strIncludes (resp.contentTypeHeader.getD "") "application/json" with
        | true =>
          cases hj : resp.jsonResult with
          | error e => simp [handler, hm, hc, hct, hj, upstreamErrorResp]
          | ok d => simp [errorOutcome, hct, hj] at he
        | false =>
          cases htx : resp.textResult with
          | error e => simp [handler, hm, hc, hct, htx, upstreamErrorResp]
          | ok t => simp [errorOutcome, hct, htx] at he

/-! ## Claim theorems -/

/-- Claim C5: for every inbound request whose method is not POST, the
relay responds 405 with an Allow header advertising POST and a generic
JSON body, and issues no upstream call. -/
theorem claim5_method_not_allowed (env : Config) (up : FetchOutcome) (req : Request)
    (h : req.method ≠ "POST") :
    handler env up req =
      { sent := none,
        response := { status := 405,
                      headers := [("Allow", "POST"), ("content-type", "application/json")],
                      body := "\x7b\"error\":\"Method not allowed\"\x7d" } } := by
  unfold handler
  rw [if_pos h]
  rfl

/-- Witness for C5 at the concrete method GET. -/
theorem claim5_witness :
    ("GET" ≠ "POST")
    ∧ handler ⟨some "k", some "https://api.example"⟩ (.thrown "boom") ⟨"GET", .null⟩ =
      { sent := none,
        response := { status := 405,
                      headers := [("Allow", "POST"), ("content-type", "application/json")],
                      body := "\x7b\"error\":\"Method not allowed\"\x7d" } } :=
  ⟨by decide, claim5_method_not_allowed _ _ _ (by decide)⟩

/-- Claim C6: for every POST request, if either configuration value is
missing or empty, the relay responds 500 with a diagnostic message and
performs no upstream call. -/
theorem claim6_config_error (env : Config) (up : FetchOutcome) (req : Request)
    (hm : req.method = "POST") (hc : envFalsy env.key ∨ envFalsy env.url) :
    handler env up req =
      { sent := none,
        response := { status := 500,
                      headers := [("content-type", "application/json")],
                      body := "\x7b\"error\":\"Thesys API key or URL not configured on server\"\x7d" } } := by
  unfold handler
  rw [if_neg (fun h => h hm), if_pos hc]
  rfl

/-- Witness for C6 with the credential absent. -/
theorem claim6_witness :
    (("POST" : String) = "POST" ∧ (envFalsy (none : Option String) ∨ envFalsy (some "https://u")))
    ∧ handler ⟨none, some "https://u"⟩ (.thrown "boom") ⟨"POST", .str "hi"⟩ =
      { sent := none,
        response := { status := 500,
                      headers := [("content-type", "application/json")],
                      body := "\x7b\"error\":\"Thesys API key or URL not configured on server\"\x7d" } } :=
  ⟨⟨rfl, by left; decide⟩, claim6_config_error _ _ _ rfl (by left; decide)⟩

/-- Claim C7: if the upstream call throws, or reading the upstream body
throws, the relay responds 500 with the fixed generic message; the
response is a constant, so the underlying error detail (the thrown
message carried by the outcome) never reaches the client. -/
theorem claim7_upstream_error_generic (env : Config) (up : FetchOutcome) (req : Request)
    (hm : req.method = "POST") (hk : ¬ envFalsy env.key) (hu : ¬ envFalsy env.url)
    (he : errorOutcome up = true) :
    (handler env up req).response =
      { status := 500,
        headers := [("content-type", "application/json")],
        body := "\x7b\"error\":\"Error contacting Thesys API\"\x7d" } := by
  have hm' : ¬ req.method ≠ "POST" := fun h => h hm
  have hc : ¬ (envFalsy env.key ∨ envFalsy env.url) := fun h => h.elim hk hu
  cases up with
  | thrown m => simp only [handler, hm', hc]; rfl
  | ok resp =>
    cases hct : strIncludes (resp.contentTypeHeader.getD "") "application/json" with
    | true =>
      cases hj : resp.jsonResult with
      | error e => simp only [handler]; simp [hm', hc, hct, hj]; rfl
      | ok d => simp [errorOutcome, hct, hj] at he
    | false =>
      cases htx : resp.textResult with
      | error e => simp only [handler]; simp [hm', hc, hct, htx]; rfl
      | ok t => simp [errorOutcome, hct, htx] at he

/-- Witness for C7 at a concrete thrown network error. -/
theorem claim7_witness :
    (("POST" : String) = "POST" ∧ ¬ envFalsy (some "secret") ∧ ¬ envFalsy (some "https://u")
      ∧ errorOutcome (.thrown "ECONNREFUSED upstream.example") = true)
    ∧ (handler ⟨some "secret", some "https://u"⟩ (.thrown "ECONNREFUSED upstream.example")
        ⟨"POST", .str "hi"⟩).response =
      { status := 500,
        headers := [("content-type", "application/json")],
        body := "\x7b\"error\":\"Error contacting Thesys API\"\x7d" } :=
  ⟨⟨rfl, by decide, by decide, rfl⟩,
   claim7_upstream_error_generic _ _ _ rfl (by decide) (by decide) rfl⟩

/-- Claim C8: for every POST request with valid configuration, the
outbound request is exactly the JSON re-serialization of the inbound
body, sent to the configured URL with a JSON content-type and a bearer
authorization header — independent of what the upstream then does. -/
theorem claim8_forwarded_request (k u : String) (req : Request) (up : FetchOutcome)
    (hm : req.method = "POST") (hk : k ≠ "") (hu : u ≠ "") :
    (handler ⟨some k, some u⟩ up req).sent =
      some { url := u, method := "POST",
             headers := [("Content-Type", "application/json"),
                         ("Authorization", "Bearer " ++ k)],
             body := stringify req.body } := by
  have hm' : ¬ req.method ≠ "POST" := fun h => h hm
  have hc : ¬ (envFalsy (some k) ∨ envFalsy (some u)) := by
    simp [envFalsy]
    exact ⟨hk, hu⟩
  cases up with
  | thrown m => simp [handler, hm', hc]
  | ok resp =>
    cases hct : strIncludes (resp.contentTypeHeader.getD "") "application/json" with
    | true => cases hj : resp.jsonResult <;> simp [handler, hm', hc, hct, hj]
    | false => cases htx : resp.textResult <;> simp [handler, hm', hc, hct, htx]

/-- Witness for C8 at a concrete request body. -/
theorem claim8_witness :
    (("POST" : String) = "POST" ∧ ("secret" : String) ≠ "" ∧ ("https://u" : String) ≠ "")
    ∧ (handler ⟨some "secret", some "https://u"⟩ (.thrown "boom")
        ⟨"POST", .obj [("prompt", .str "hi")]⟩).sent =
      some { url := "https://u", method := "POST",
             headers := [("Content-Type", "application/json"),
                         ("Authorization", "Bearer " ++ "secret")],
             body := stringify (JsonV.obj [("prompt", .str "hi")]) } :=
  ⟨⟨rfl, by decide, by decide⟩,
   claim8_forwarded_request "secret" "https://u" _ _ rfl (by decide) (by decide)⟩

/-- Claim C2: for every upstream response received and read without error,
the relay returns the upstream's original status code; a JSON
content-type means the parsed body is returned (re-serialized) unchanged,
and any other content-type means the raw text is returned with the
upstream's content-type header propagated unchanged. -/
theorem claim2_success_passthrough (env : Config) (req : Request) (resp : UpstreamResponse)
    (hm : req.method = "POST") (hk : ¬ envFalsy env.key) (hu : ¬ envFalsy env.url) :
    (∀ d : JsonV,
        strIncludes (resp.contentTypeHeader.getD "") "application/json" = true →
        resp.jsonResult = .ok d →
        (handler env (.ok resp) req).response =
          { status := resp.status,
            headers := [("content-type", "application/json")],
            body := stringify d })
    ∧ (∀ (ct : String) (t : String),
        resp.contentTypeHeader = some ct →
        strIncludes ct "application/json" = false →
        resp.textResult = .ok t →
        (handler env (.ok resp) req).response =
          { status := resp.status, headers := [("content-type", ct)], body := t }) := by
  have hm' : ¬ req.method ≠ "POST" := fun h => h hm
  have hc : ¬ (envFalsy env.key ∨ envFalsy env.url) := fun h => h.elim hk hu
  constructor
  · intro d hct hj
    simp [handler, hm', hc, hct, hj, jsonResponse]
  · intro ct t hsome hct htx
    simp [handler, hm', hc, hsome, hct, htx]

/-- Witness for C2: a 200 JSON response with body `{output:"hi"}` is
relayed with status 200 and the same body. -/
theorem claim2_witness :
    (("POST" : String) = "POST" ∧ ¬ envFalsy (some "secret") ∧ ¬ envFalsy (some "https://u")
      ∧ strIncludes ((some "application/json").getD "") "application/json" = true)
    ∧ (handler ⟨some "secret", some "https://u"⟩
        (.ok { status := 200, contentTypeHeader := some "application/json",
               jsonResult := .ok (.obj [("output", .str "hi")]),
               textResult := .ok "\x7b\"output\":\"hi\"\x7d" })
        ⟨"POST", .null⟩).response =
      { status := 200,
        headers := [("content-type", "application/json")],
        body := "\x7b\"output\":\"hi\"\x7d" } :=
  ⟨⟨rfl, by decide, by decide, by decide⟩,
   (claim2_success_passthrough _ _ _ rfl (by decide) (by decide)).1
     (.obj [("output", .str "hi")]) (by decide) rfl⟩

/-- Claim C4 counterexample: with valid configuration and a POST request,
an upstream response of status 404 received without the call throwing is
relayed to the client with status 404 — not surfaced as a generic 500 as
the claim states. -/
theorem claim4_counterexample :
    (handler ⟨some "secret", some "https://u"⟩
      (.ok { status := 404, contentTypeHeader := some "application/json",
             jsonResult := .ok (.obj [("error", .str "not found")]),
             textResult := .ok "\x7b\"error\":\"not found\"\x7d" })
      ⟨"POST", .null⟩).response.status = 404
    ∧ (handler ⟨some "secret", some "https://u"⟩
      (.ok { status := 404, contentTypeHeader := some "application/json",
             jsonResult := .ok (.obj [("error", .str "not found")]),
             textResult := .ok "\x7b\"error\":\"not found\"\x7d" })
      ⟨"POST", .null⟩).response.status ≠ 500 := by
  constructor
  · rfl
  · decide

/-- Claim C4 amended: when the upstream responds and the body read
succeeds, the relay passes the upstream's status code through unchanged —
including non-2xx statuses; the generic 500 with the fixed error body is
produced only on the exception path (the call or the body read throwing). -/
theorem claim4_amended_status_passthrough (env : Config) (req : Request)
    (hm : req.method = "POST") (hk : ¬ envFalsy env.key) (hu : ¬ envFalsy env.url) :
    (∀ resp : UpstreamResponse, errorOutcome (.ok resp) = false →
        (handler env (.ok resp) req).response.status = resp.status)
    ∧ (∀ e : String,
        (handler env (.thrown e) req).response.status = 500
        ∧ (handler env (.thrown e) req).response.body =
            "\x7b\"error\":\"Error contacting Thesys API\"\x7d") := by
  have hm' : ¬ req.method ≠ "POST" := fun h => h hm
  have hc : ¬ (envFalsy env.key ∨ envFalsy env.url) := fun h => h.elim hk hu
  constructor
  · intro resp hre
    cases hct : strIncludes (resp.contentTypeHeader.getD "") "application/json" with
    | true =>
      cases hj : resp.jsonResult with
      | error e => simp [errorOutcome, hct, hj] at hre
      | ok d => simp [handler, hm', hc, hct, hj, jsonResponse]
    | false =>
      cases htx : resp.textResult with
      | error e => simp [errorOutcome, hct, htx] at hre
      | ok t => simp [handler, hm', hc, hct, htx]
  · intro e
    constructor
    · simp [handler, hm', hc, jsonResponse]
    · simp only [handler]
      simp [hm', hc]
      rfl

/-- Witness for C4's amended claim: the 404 JSON response above is passed
through with status 404. -/
theorem claim4_witness :
    (("POST" : String) = "POST" ∧ ¬ envFalsy (some "secret") ∧ ¬ envFalsy (some "https://u")
      ∧ errorOutcome (.ok { status := 404, contentTypeHeader := some "application/json",
                            jsonResult := .ok (.obj [("error", .str "not found")]),
                            textResult := .ok "\x7b\"error\":\"not found\"\x7d" }) = false)
    ∧ (handler ⟨some "secret", some "https://u"⟩
        (.ok { status := 404, contentTypeHeader := some "application/json",
               jsonResult := .ok (.obj [("error", .str "not found")]),
               textResult := .ok "\x7b\"error\":\"not found\"\x7d" })
        ⟨"POST", .null⟩).response.status = 404 :=
  ⟨⟨rfl, by decide, by decide, rfl⟩,
   (claim4_amended_status_passthrough ⟨some "secret", some "https://u"⟩ ⟨"POST", .null⟩
        rfl (by decide) (by decide)).1
     { status := 404, contentTypeHeader := some "application/json",
       jsonResult := .ok (.obj [("error", .str "not found")]),
       textResult := .ok "\x7b\"error\":\"not found\"\x7d" } rfl⟩

/-- A concrete credential longer than every fixed error response body. -/
def longKey : String :=
  "sk-0123456789-0123456789-0123456789-0123456789-0123456789-0123456789"

/-- Claim C1: the relay's client response is a function independent of
the credential (any two runs with non-empty credentials, same request and
same upstream outcome, produce identical responses, errors included), and
on every error path the response is one of three fixed constants, so a
credential longer than 60 characters cannot occur in any error response
body or header value. -/
theorem claim1_credential_noninterference :
    (∀ (k1 k2 u : String) (up : FetchOutcome) (req : Request),
        k1 ≠ "" → k2 ≠ "" →
        (handler ⟨some k1, some u⟩ up req).response
          = (handler ⟨some k2, some u⟩ up req).response)
    ∧ (∀ (k : String) (env : Config) (up : FetchOutcome) (req : Request),
        60 < k.length →
        (req.method ≠ "POST" ∨ envFalsy env.key ∨ envFalsy env.url ∨ errorOutcome up = true) →
        strIncludes (handler env up req).response.body k = false
        ∧ ∀ p ∈ (handler env up req).response.headers, strIncludes p.2 k = false) := by
  constructor
  · intro k1 k2 u up req h1 h2
    have e1 : ¬ envFalsy (some k1) := by simpa [envFalsy] using h1
    have e2 : ¬ envFalsy (some k2) := by simpa [envFalsy] using h2
    by_cases hm : req.method ≠ "POST"
    · simp [handler, hm]
    · by_cases hcu : envFalsy (some u)
      · simp [handler, hm, hcu]
      · cases up with
        | thrown m => simp [handler, hm, hcu, e1, e2]
        | ok resp =>
          cases hct : strIncludes (resp.contentTypeHeader.getD "") "application/json" with
          | true => cases hj : resp.jsonResult <;> simp [handler, hm, hcu, e1, e2, hct, hj]
          | false => cases htx : resp.textResult <;> simp [handler, hm, hcu, e1, e2, hct, htx]
  · intro k env up req hlen hcond
    rcases handler_error_responses env up req hcond with h | h | h <;> rw [h]
    · refine ⟨strIncludes_false_of_long ?_, ?_⟩
      · have hb : methodNotAllowedResp.body.length = 30 := by decide
        omega
      · intro p hp
        refine strIncludes_false_of_long ?_
        have hall : ∀ q ∈ methodNotAllowedResp.headers, q.2.length ≤ 16 := by decide
        have := hall p hp
        omega
    · refine ⟨strIncludes_false_of_long ?_, ?_⟩
      · have hb : configErrorResp.body.length = 58 := by decide
        omega
      · intro p hp
        refine strIncludes_false_of_long ?_
        have hall : ∀ q ∈ configErrorResp.headers, q.2.length ≤ 16 := by decide
        have := hall p hp
        omega
    · refine ⟨strIncludes_false_of_long ?_, ?_⟩
      · have hb : upstreamErrorResp.body.length = 39 := by decide
        omega
      · intro p hp
        refine strIncludes_false_of_long ?_
        have hall : ∀ q ∈ upstreamErrorResp.headers, q.2.length ≤ 16 := by decide
        have := hall p hp
        omega

/-- Witness for C1: two different concrete credentials yield the same
error response on a thrown upstream call, and a concrete long credential
does not occur in that error body. -/
theorem claim1_witness :
    ((handler ⟨some "alpha", some "https://u"⟩ (.thrown "ECONNREFUSED") ⟨"POST", .null⟩).response
      = (handler ⟨some "beta", some "https://u"⟩ (.thrown "ECONNREFUSED") ⟨"POST", .null⟩).response)
    ∧ (60 < longKey.length
      ∧ strIncludes (handler ⟨some longKey, some "https://u"⟩ (.thrown "ECONNREFUSED")
          ⟨"POST", .null⟩).response.body longKey = false) :=
  ⟨claim1_credential_noninterference.1 "alpha" "beta" "https://u"
      (.thrown "ECONNREFUSED") ⟨"POST", .null⟩ (by decide) (by decide),
   by decide,
   (claim1_credential_noninterference.2 longKey ⟨some longKey, some "https://u"⟩
      (.thrown "ECONNREFUSED") ⟨"POST", .null⟩
      (by decide) (Or.inr (Or.inr (Or.inr rfl)))).1⟩

/-- Claim C3: the normalizer's extraction order is exactly the spec's
four stages — witnessed by the four concrete cases of the claim, and in
general by equality with the spec-side staged extraction on every
non-null payload. -/
theorem claim3_extraction_order :
    assistantText (.obj [("choices", .arr [.obj [("message", .obj [("content", .str "x")])]])])
      = .ok "x"
    ∧ assistantText (.obj [("choices", .arr [.obj [("text", .str "y")]])]) = .ok "y"
    ∧ assistantText (.obj [("foo", .str "bar")]) = .ok "\x7b\"foo\":\"bar\"\x7d"
    ∧ assistantText (.obj [("output", .str "z"), ("choices", .arr [.obj [("text", .str "y")]])])
      = .ok "z"
    ∧ ∀ j : JsonV, j ≠ JsonV.null → assistantTextRaw j = .ok (extractSpec j) :=
  ⟨rfl, rfl, rfl, rfl, assistantTextRaw_eq_extractSpec⟩

/-- Witness for C3's general conjunct at a concrete non-null payload. -/
theorem claim3_witness :
    (JsonV.obj [("output", .str "z")] ≠ JsonV.null)
    ∧ assistantTextRaw (.obj [("output", .str "z")])
        = .ok (extractSpec (.obj [("output", .str "z")])) :=
  ⟨fun h => JsonV.noConfusion h,
   claim3_extraction_order.2.2.2.2 _ (fun h => JsonV.noConfusion h)⟩

/-- Claim C9 counterexample: the normalizer throws on the parsed JSON
value null — `json.output` raises a TypeError — so it is not non-throwing
on every parsed JSON value. -/
theorem claim9_counterexample :
    assistantText JsonV.null = .error "TypeError" := rfl

/-- Claim C9 amended: on every non-null parsed JSON value the normalizer
never throws and returns a string (with the serialization fallback for
unrecognized shapes, per C3). -/
theorem claim9_amended_total_on_nonnull (j : JsonV) (hj : j ≠ JsonV.null) :
    ∃ s : String, assistantText j = .ok s := by
  refine ⟨jsToString (extractSpec j), ?_⟩
  unfold assistantText
  rw [assistantTextRaw_eq_extractSpec j hj]
  rfl

/-- Witness for C9's amended claim at a concrete unrecognized shape. -/
theorem claim9_witness :
    (JsonV.obj [("foo", .str "bar")] ≠ JsonV.null)
    ∧ ∃ s : String, assistantText (.obj [("foo", .str "bar")]) = .ok s :=
  ⟨fun h => JsonV.noConfusion h,
   claim9_amended_total_on_nonnull _ (fun h => JsonV.noConfusion h)⟩

/-- Claim C10: when the input is empty or whitespace-only (its trim is
empty), `send` is a no-op — the state (messages, input, loading flag) is
unchanged and no request is issued. -/
theorem claim10_empty_input_noop (st : ChatState) (outcome : ClientFetchOutcome)
    (h : jsTrim st.input = "") :
    send st outcome = (st, none) := by
  simp [send, h]

/-- Witness for C10 at a concrete whitespace-only input. -/
theorem claim10_witness :
    jsTrim (ChatState.mk "   " [] false).input = ""
    ∧ send ⟨"   ", [], false⟩ (.thrown "boom") = (⟨"   ", [], false⟩, none) :=
  ⟨by decide, claim10_empty_input_noop ⟨"   ", [], false⟩ (.thrown "boom") (by decide)⟩

end ThesysProxy
